import Mathlib

/-!
Verification of `src/index.ts` of the supabase-branch-gh-action repository.

The single source file runs a bounded polling loop: it lists database
preview branches of a Supabase project, matches one by name against the
current git branch, classifies its readiness, and on the ready tick fetches
branch details and project api keys and publishes them as action outputs
(masking secret values first).

The embedding below models one loop iteration (`tick`) as a pure function
of the results the three remote calls would return on that iteration, and
the whole loop (`runLoop`) as a pure function of a finite schedule of
observation times and per-iteration remote results.  Host effects
(`core.setSecret`, `core.setOutput`, `core.info`, `core.warning`,
`core.setFailed`, `console.log`, the inter-tick sleep and each remote call)
are recorded in an event trace.
-/

namespace SupabaseBranchAction

/-- A JavaScript value as it occurs in the fields the action reads:
strings, numbers, booleans, or `undefined` for absent optional fields. -/
inductive JSValue where
  | str (s : String)
  | num (n : Int)
  | bool (b : Bool)
  | undef
deriving DecidableEq, Repr

/-- JavaScript truthiness of a `JSValue` (the `if (value)` checks):
empty string, zero, `false` and `undefined` are falsy. -/
def JSValue.truthy : JSValue → Bool
  | .str s => !(s == "")
  | .num n => !(n == 0)
  | .bool b => b
  | .undef => false

/-- JavaScript `value.toString()` for the values above. -/
def JSValue.toStr : JSValue → String
  | .str s => s
  | .num n => toString n
  | .bool b => if b then "true" else "false"
  | .undef => "undefined"

/-- JavaScript strict equality `value === "status"` from line 135 of the
source: only a string value equal to `"status"` satisfies it. -/
def JSValue.eqStrStatus : JSValue → Bool
  | .str s => s == "status"
  | _ => false

/-- The branch status enum of the Supabase management API, as listed in the
studio file the source comment on line 70 links to.  The source only ever
compares the status against `MIGRATIONS_PASSED` and `FUNCTIONS_DEPLOYED`. -/
inductive BranchStatus where
  | CREATING_PROJECT
  | RUNNING_MIGRATIONS
  | MIGRATIONS_PASSED
  | MIGRATIONS_FAILED
  | FUNCTIONS_DEPLOYED
  | FUNCTIONS_FAILED
deriving DecidableEq, Repr

/-- The wire string of a `BranchStatus` (statuses are strings in JS). -/
def statusToString : BranchStatus → String
  | .CREATING_PROJECT => "CREATING_PROJECT"
  | .RUNNING_MIGRATIONS => "RUNNING_MIGRATIONS"
  | .MIGRATIONS_PASSED => "MIGRATIONS_PASSED"
  | .MIGRATIONS_FAILED => "MIGRATIONS_FAILED"
  | .FUNCTIONS_DEPLOYED => "FUNCTIONS_DEPLOYED"
  | .FUNCTIONS_FAILED => "FUNCTIONS_FAILED"

/-- An Environment Summary: one element of the `getBranches` response. -/
structure Branch where
  id : String
  name : String
  project_ref : String
  parent_project_ref : String
  git_branch : Option String
  pr_number : Option Int
  reset_on_push : Bool
  status : BranchStatus
  created_at : String
  updated_at : String
deriving DecidableEq, Repr

/-- An Environment Detail: the `getBranchDetails` response.  The field
values are read generically with a truthiness check, so they are kept as
`JSValue`; `ref` is used directly in a template string. -/
structure BranchDetails where
  db_host : JSValue
  db_port : JSValue
  db_user : JSValue
  db_pass : JSValue
  jwt_secret : JSValue
  ref : String
deriving DecidableEq, Repr

/-- A Credential Entry: one element of the `getProjectApiKeys` response. -/
structure ApiKey where
  name : String
  api_key : String
deriving DecidableEq, Repr

/-- The `branchKeys` list of lines 120-131 paired with the corresponding
field read `currentBranch[key]` of line 133. -/
def branchFieldValues (b : Branch) : List (String × JSValue) :=
  [("id", .str b.id),
   ("name", .str b.name),
   ("project_ref", .str b.project_ref),
   ("parent_project_ref", .str b.parent_project_ref),
   ("git_branch", match b.git_branch with | some s => .str s | none => .undef),
   ("pr_number", match b.pr_number with | some n => .num n | none => .undef),
   ("reset_on_push", .bool b.reset_on_push),
   ("status", .str (statusToString b.status)),
   ("created_at", .str b.created_at),
   ("updated_at", .str b.updated_at)]

/-- The `branchDetailsKeys` list of lines 143-149 paired with the field
read `branchDetails[key]` of line 151. -/
def detailFieldValues (d : BranchDetails) : List (String × JSValue) :=
  [("db_host", d.db_host),
   ("db_port", d.db_port),
   ("db_user", d.db_user),
   ("db_pass", d.db_pass),
   ("jwt_secret", d.jwt_secret)]

/-- An `ApiError` thrown by a remote call: an HTTP-like status plus a
rendering used when the error is interpolated into a warning message. -/
structure ApiError where
  status : Nat
  message : String
deriving DecidableEq, Repr

/-- The transient classification `err.status === 429 || err.status >= 500`
appearing in each catch handler (lines 61, 81, 100). -/
def isTransient (e : ApiError) : Bool :=
  e.status == 429 || 500 ≤ e.status

/-- The result of one remote call: a value, or an `ApiError` rejection. -/
inductive FetchResult (α : Type) where
  | ok (val : α)
  | err (e : ApiError)
deriving DecidableEq, Repr

/-- The wrapped error thrown on the fatal path of each catch handler:
`new Error(message)` with `cause` set to the underlying `ApiError`. -/
structure FatalError where
  message : String
  cause : ApiError
deriving DecidableEq, Repr

/-- One observable host effect of the action. -/
inductive Event where
  | setSecret (v : String)
  | setOutput (k : String) (v : String)
  | info (m : String)
  | warning (m : String)
  | setFailed (m : String)
  | consoleLog (m : String)
  | sleep (ms : Nat)
  | callGetBranches (ref : String)
  | callGetBranchDetails (branchId : String)
  | callGetProjectApiKeys (ref : String)
deriving DecidableEq, Repr

/-- The remote results one loop iteration would observe: the
`getBranches`, `getBranchDetails` and `getProjectApiKeys` responses.
The latter two are consulted only if the iteration reaches those calls. -/
structure TickData where
  branchesRes : FetchResult (List Branch)
  detailRes : FetchResult BranchDetails
  keysRes : FetchResult (List ApiKey)
deriving DecidableEq, Repr

/-- How one loop iteration ends.  `skipNoSleep` is the `continue` on
lines 92 and 111, which jumps straight back to the `while` condition;
`notReadySleep` is the fall-through to lines 170-173 (progress notice
followed by the fixed 2900 ms sleep). -/
inductive TickOutcome where
  | success
  | fatal (e : FatalError)
  | skipNoSleep
  | notReadySleep
deriving DecidableEq, Repr

/-- Lines 115-118: for each api key, mask it and publish `<name>_key`. -/
def publishApiKeys (ks : List ApiKey) : List Event :=
  (ks.map fun k => [Event.setSecret k.api_key,
                    Event.setOutput (k.name ++ "_key") k.api_key]).flatten

/-- Lines 132-141: one step of the `branchKeys` loop.  If the value is
truthy it is masked and published; the key is renamed by appending
`branch_status` when the value (not the key) strictly equals `"status"`. -/
def publishSummaryField (kv : String × JSValue) : List Event :=
  if kv.2.truthy then
    [Event.setSecret kv.2.toStr,
     Event.setOutput (if kv.2.eqStrStatus then kv.1 ++ "branch_status" else kv.1)
       kv.2.toStr]
  else []

/-- Lines 132-141: the whole `branchKeys` loop. -/
def publishBranchFields (b : Branch) : List Event :=
  ((branchFieldValues b).map publishSummaryField).flatten

/-- Lines 150-156: one step of the `branchDetailsKeys` loop (no rename). -/
def publishDetailField (kv : String × JSValue) : List Event :=
  if kv.2.truthy then
    [Event.setSecret kv.2.toStr, Event.setOutput kv.1 kv.2.toStr]
  else []

/-- Lines 143-156: the whole `branchDetailsKeys` loop. -/
def publishDetailFields (d : BranchDetails) : List Event :=
  ((detailFieldValues d).map publishDetailField).flatten

/-- Line 160: the REST endpoint URL built from the detail `ref`. -/
def apiUrl (d : BranchDetails) : String :=
  "https://" ++ d.ref ++ ".supabase.co/rest/v1"

/-- Line 164: the GraphQL endpoint URL built from the detail `ref`. -/
def graphqlUrl (d : BranchDetails) : String :=
  "https://" ++ d.ref ++ ".supabase.co/graphql/v1"

/-- Line 171: the progress notice
`Waiting for branch ... to be created. Status=...`, where the optional
chaining `currentBranch?.status` prints `undefined` without a candidate. -/
def waitingMsg (branchName : String) (cb : Option Branch) : String :=
  "Waiting for branch " ++ branchName ++ " to be created. Status=" ++
    (match cb with
     | some b => statusToString b.status
     | none => "undefined")

/-- Lines 75-168: the body executed once a candidate is matched and
classified ready: fetch details, fetch api keys, then mask and publish
everything and end with success.  Each fetch has the transient/fatal catch
split; a transient fetch warns twice and re-enters the loop via
`continue` (no publishing, no sleep). -/
def readyPhase (branchName : String) (cb : Branch) (detailRes : FetchResult BranchDetails)
    (keysRes : FetchResult (List ApiKey)) (ev : List Event) : TickOutcome × List Event :=
  let ev0 := ev ++
    [Event.info ("Branch " ++ branchName ++ " found, status: " ++ statusToString cb.status),
     Event.callGetBranchDetails cb.id]
  match detailRes with
  | .err e =>
    if isTransient e then
      (.skipNoSleep,
       ev0 ++ [Event.warning ("Error fetching branch details: " ++ e.message),
               Event.warning "Branch details not found"])
    else (.fatal ⟨"Error fetching branch details", e⟩, ev0)
  | .ok details =>
    let ev1 := ev0 ++ [Event.callGetProjectApiKeys cb.project_ref]
    match keysRes with
    | .err e =>
      if isTransient e then
        (.skipNoSleep,
         ev1 ++ [Event.warning ("Error fetching api keys: " ++ e.message),
                 Event.warning "Api keys not found"])
      else (.fatal ⟨"Error fetching api keys", e⟩, ev1)
    | .ok apiKeys =>
      (.success,
       ev1 ++ publishApiKeys apiKeys ++ publishBranchFields cb
           ++ publishDetailFields details
           ++ [Event.setOutput "api_url" (apiUrl details),
               Event.setOutput "graphql_url" (graphqlUrl details),
               Event.info "success"])

/-- Lines 69-173 given the branch listing of this iteration: find the
candidate by name (line 69), classify readiness (lines 71-74), and either
run the ready phase or emit the progress notice and sleep 2900 ms. -/
def withBranches (branchName : String) (waitForMigrations : Bool)
    (branches : List Branch) (d : TickData) (ev : List Event) : TickOutcome × List Event :=
  match branches.find? (fun b => b.name == branchName) with
  | some currentBranch =>
    if !waitForMigrations
        || statusToString currentBranch.status == "MIGRATIONS_PASSED"
        || statusToString currentBranch.status == "FUNCTIONS_DEPLOYED" then
      readyPhase branchName currentBranch d.detailRes d.keysRes ev
    else
      (.notReadySleep,
       ev ++ [Event.info (waitingMsg branchName (some currentBranch)), Event.sleep 2900])
  | none =>
    (.notReadySleep,
     ev ++ [Event.info (waitingMsg branchName none), Event.sleep 2900])

/-- One iteration of the `while` body (lines 56-173).  The `getBranches`
catch handler (lines 60-68) returns an empty listing on a transient error
and throws a wrapped fatal error otherwise. -/
def tick (sbRef branchName : String) (waitForMigrations : Bool) (d : TickData) :
    TickOutcome × List Event :=
  match d.branchesRes with
  | .err e =>
    if isTransient e then
      withBranches branchName waitForMigrations [] d
        [Event.callGetBranches sbRef,
         Event.warning ("Failed fetching fetching branches: " ++ e.message)]
    else
      (.fatal ⟨"Failed fetching fetching branches", e⟩, [Event.callGetBranches sbRef])
  | .ok bs =>
    withBranches branchName waitForMigrations bs d [Event.callGetBranches sbRef]

/-- The Readiness Classifier of lines 71-74 taken on its own: the optional
candidate is ready when present and either the flag is off or the status
is one of the two terminal-success values. -/
def isReady (waitForMigrations : Bool) : Option Branch → Bool
  | none => false
  | some b =>
    !waitForMigrations
      || statusToString b.status == "MIGRATIONS_PASSED"
      || statusToString b.status == "FUNCTIONS_DEPLOYED"

/-- One observation point of the loop: the value `Date.now()` returns at
the `while` condition check, and the remote results the iteration would
then observe. -/
structure Step where
  time : Int
  data : TickData
deriving DecidableEq, Repr

/-- How a whole run of the loop ends.  `fuelOut` marks exhaustion of the
finite observation schedule, not a behavior of the program. -/
inductive RunResult where
  | success
  | fatal (e : FatalError)
  | timedOut
  | fuelOut
deriving DecidableEq, Repr

/-- Line 176: the failure message set after the loop runs out of time. -/
def timeoutMsg (branchName : String) : String :=
  "Timeout waiting for branch " ++ branchName ++ " to be created"

/-- Lines 54-176: the `while (Date.now() - now < timeout * 1000)` loop.
`start` is the `now` recorded on line 54 and `timeoutSec` the parsed
timeout input; each schedule entry supplies the clock value of one
condition check and the remote results of the iteration it guards.  When
the condition fails the loop exits and line 176 reports the timeout. -/
def runLoop (sbRef branchName : String) (waitForMigrations : Bool)
    (timeoutSec start : Int) : List Step → RunResult × List Event
  | [] => (.fuelOut, [])
  | s :: rest =>
    if s.time - start < timeoutSec * 1000 then
      match tick sbRef branchName waitForMigrations s.data with
      | (.success, ev) => (.success, ev)
      | (.fatal fe, ev) => (.fatal fe, ev)
      | (.skipNoSleep, ev) =>
        let r := runLoop sbRef branchName waitForMigrations timeoutSec start rest
        (r.1, ev ++ r.2)
      | (.notReadySleep, ev) =>
        let r := runLoop sbRef branchName waitForMigrations timeoutSec start rest
        (r.1, ev ++ r.2)
    else
      (.timedOut, [Event.setFailed (timeoutMsg branchName)])

/-- The result of `Number(core.getInput("timeout"))` on line 11: a
JavaScript number, possibly `NaN`. -/
inductive JSNum where
  | nan
  | num (v : Int)
deriving DecidableEq, Repr

/-- JavaScript truthiness of the optional branch-name string. -/
def jsTruthyStr : Option String → Bool
  | some s => !(s == "")
  | none => false

/-- Line 40: `(process.env.GITHUB_REF ?? "").split("refs/heads/")[1]`. -/
def fallbackBranch (ghRef : Option String) : Option String :=
  ((ghRef.getD "").splitOn "refs/heads/").get? 1

/-- Lines 37-41: prefer `GITHUB_HEAD_REF` when truthy, else derive the
branch name from `GITHUB_REF`. -/
def resolvedBranch (headRef ghRef : Option String) : Option String :=
  if jsTruthyStr headRef then headRef else fallbackBranch ghRef

/-- How a whole invocation of `main` ends: an input-validation failure
before the loop, or the loop result. -/
inductive MainResult where
  | configFail (msg : String)
  | loopDone (r : RunResult)
deriving DecidableEq, Repr

/-- Lines 7-177: `main`.  Inputs are modelled post-read: the two secret
strings, the boolean flag, the parsed timeout number, the two optional
environment variables, the loop-start clock value and the loop schedule.
Validation order and messages follow lines 13-49. -/
def mainRun (sbToken sbRef : String) (waitForMigrations : Bool)
    (timeoutParsed : JSNum) (headRef ghRef : Option String)
    (start : Int) (steps : List Step) : MainResult × List Event :=
  let ev0 := [Event.setSecret sbToken, Event.setSecret sbRef]
  if sbToken == "" then
    (.configFail "Supabase access token is not defined",
     ev0 ++ [Event.setFailed "Supabase access token is not defined"])
  else if sbRef == "" then
    (.configFail "Supabase project id is not defined",
     ev0 ++ [Event.setFailed "Supabase project id is not defined"])
  else
    match timeoutParsed with
    | .nan =>
      (.configFail "Timeout is not a valid number",
       ev0 ++ [Event.setFailed "Timeout is not a valid number"])
    | .num timeoutSec =>
      let bn? := resolvedBranch headRef ghRef
      let ev1 := ev0 ++ [Event.consoleLog (bn?.getD "undefined")]
      match bn? with
      | none =>
        (.configFail "Git branch not found", ev1 ++ [Event.setFailed "Git branch not found"])
      | some bn =>
        if bn == "" then
          (.configFail "Git branch not found", ev1 ++ [Event.setFailed "Git branch not found"])
        else
          let r := runLoop sbRef bn waitForMigrations timeoutSec start steps
          (.loopDone r.1, ev1 ++ [Event.info ("Current Git branch: " ++ bn)] ++ r.2)

/-- The published outputs of a trace: the `setOutput` events in order. -/
def outputsOf (t : List Event) : List (String × String) :=
  t.filterMap fun e =>
    match e with
    | .setOutput k v => some (k, v)
    | _ => none

/-- The outputs of a trace published under a given key. -/
def keyOuts (k : String) (t : List Event) : List (String × String) :=
  (outputsOf t).filter fun p => p.1 == k

/-- The values a trace marks as secret, in order. -/
def secretsSeen (t : List Event) : List String :=
  t.filterMap fun e =>
    match e with
    | .setSecret v => some v
    | _ => none

/-- Masking discipline of a trace: every `setOutput` value, except under
the two URL keys, was passed to `setSecret` earlier in the trace.  `seen`
accumulates the values masked so far. -/
def maskOrdered (seen : List String) : List Event → Bool
  | [] => true
  | .setSecret v :: rest => maskOrdered (v :: seen) rest
  | .setOutput k v :: rest =>
    (k == "api_url" || k == "graphql_url" || seen.contains v) && maskOrdered seen rest
  | _ :: rest => maskOrdered seen rest

/-- Whether an event is one of the three remote calls. -/
def isRemoteCall : Event → Bool
  | .callGetBranches _ => true
  | .callGetBranchDetails _ => true
  | .callGetProjectApiKeys _ => true
  | _ => false

/-- The full event trace of the successful iteration, spelled out. -/
def successTrace (sbRef branchName : String) (cb : Branch) (det : BranchDetails)
    (ks : List ApiKey) : List Event :=
  [Event.callGetBranches sbRef,
   Event.info ("Branch " ++ branchName ++ " found, status: " ++ statusToString cb.status),
   Event.callGetBranchDetails cb.id,
   Event.callGetProjectApiKeys cb.project_ref]
  ++ publishApiKeys ks ++ publishBranchFields cb ++ publishDetailFields det
  ++ [Event.setOutput "api_url" (apiUrl det),
      Event.setOutput "graphql_url" (graphqlUrl det),
      Event.info "success"]

/-- The stringifications of the truthy values of a field list: exactly the
values the corresponding publish loop masks as secrets. -/
def truthySecrets (kvs : List (String × JSValue)) : List String :=
  kvs.filterMap fun kv => if kv.2.truthy then some kv.2.toStr else none

/-- A sample Environment Summary used in concrete instantiations. -/
def sampleBranch : Branch :=
  ⟨"i1", "feat-x", "pr1", "ppr1", some "feat-x", some 7, true,
   .MIGRATIONS_PASSED, "c1", "u1"⟩

/-- A sample Environment Summary whose name is the literal `status`. -/
def statusNamedBranch : Branch :=
  ⟨"i2", "status", "pr2", "ppr2", none, none, false,
   .MIGRATIONS_PASSED, "c2", "u2"⟩

/-- A sample Environment Detail used in concrete instantiations. -/
def sampleDetail : BranchDetails :=
  ⟨.str "h", .num 5432, .str "postgres", .str "pw", .str "jwt", "r0"⟩

/-- A sample Credential Entry used in concrete instantiations. -/
def sampleKey : ApiKey := ⟨"anon", "secretA"⟩

/-- Sample remote results of one iteration with an empty listing. -/
def sampleData : TickData := ⟨.ok [], .ok sampleDetail, .ok [sampleKey]⟩

/-! ### Helper lemmas -/

theorem outputsOf_append (s t : List Event) :
    outputsOf (s ++ t) = outputsOf s ++ outputsOf t :=
  List.filterMap_append s t _

@[simp] theorem outputsOf_nil : outputsOf [] = [] := rfl

@[simp] theorem outputsOf_cons_setOutput (k v : String) (t : List Event) :
    outputsOf (Event.setOutput k v :: t) = (k, v) :: outputsOf t := rfl

@[simp] theorem outputsOf_cons_setSecret (v : String) (t : List Event) :
    outputsOf (Event.setSecret v :: t) = outputsOf t := rfl

@[simp] theorem outputsOf_cons_info (m : String) (t : List Event) :
    outputsOf (Event.info m :: t) = outputsOf t := rfl

@[simp] theorem outputsOf_cons_warning (m : String) (t : List Event) :
    outputsOf (Event.warning m :: t) = outputsOf t := rfl

@[simp] theorem outputsOf_cons_setFailed (m : String) (t : List Event) :
    outputsOf (Event.setFailed m :: t) = outputsOf t := rfl

@[simp] theorem outputsOf_cons_consoleLog (m : String) (t : List Event) :
    outputsOf (Event.consoleLog m :: t) = outputsOf t := rfl

@[simp] theorem outputsOf_cons_sleep (ms : Nat) (t : List Event) :
    outputsOf (Event.sleep ms :: t) = outputsOf t := rfl

@[simp] theorem outputsOf_cons_callGetBranches (r : String) (t : List Event) :
    outputsOf (Event.callGetBranches r :: t) = outputsOf t := rfl

@[simp] theorem outputsOf_cons_callGetBranchDetails (r : String) (t : List Event) :
    outputsOf (Event.callGetBranchDetails r :: t) = outputsOf t := rfl

@[simp] theorem outputsOf_cons_callGetProjectApiKeys (r : String) (t : List Event) :
    outputsOf (Event.callGetProjectApiKeys r :: t) = outputsOf t := rfl

@[simp] theorem secretsSeen_nil : secretsSeen [] = [] := rfl

@[simp] theorem secretsSeen_cons_setSecret (v : String) (t : List Event) :
    secretsSeen (Event.setSecret v :: t) = v :: secretsSeen t := rfl

@[simp] theorem secretsSeen_cons_setOutput (k v : String) (t : List Event) :
    secretsSeen (Event.setOutput k v :: t) = secretsSeen t := rfl

@[simp] theorem secretsSeen_cons_info (m : String) (t : List Event) :
    secretsSeen (Event.info m :: t) = secretsSeen t := rfl

@[simp] theorem secretsSeen_cons_warning (m : String) (t : List Event) :
    secretsSeen (Event.warning m :: t) = secretsSeen t := rfl

@[simp] theorem secretsSeen_cons_callGetBranches (r : String) (t : List Event) :
    secretsSeen (Event.callGetBranches r :: t) = secretsSeen t := rfl

@[simp] theorem secretsSeen_cons_callGetBranchDetails (r : String) (t : List Event) :
    secretsSeen (Event.callGetBranchDetails r :: t) = secretsSeen t := rfl

@[simp] theorem secretsSeen_cons_callGetProjectApiKeys (r : String) (t : List Event) :
    secretsSeen (Event.callGetProjectApiKeys r :: t) = secretsSeen t := rfl

theorem secretsSeen_append (s t : List Event) :
    secretsSeen (s ++ t) = secretsSeen s ++ secretsSeen t :=
  List.filterMap_append s t _

theorem keyOuts_append (k : String) (s t : List Event) :
    keyOuts k (s ++ t) = keyOuts k s ++ keyOuts k t := by
  simp [keyOuts, outputsOf_append, List.filter_append]

/-- A string obtained by appending `suf` cannot equal `k` when the
reversed data of `k` does not start with the reversed data of `suf`. -/
theorem append_suffix_ne (n suf k : String)
    (h : List.take suf.data.length k.data.reverse ≠ suf.data.reverse) :
    n ++ suf ≠ k := by
  intro he
  apply h
  rw [← he]
  rw [String.data_append, List.reverse_append]
  exact List.take_left' (List.length_reverse suf.data)

/-- No string of the form `<n>_key` equals `k` when the data of `k` does
not end in `_key`. -/
theorem append_key_ne (k : String)
    (h : List.take 4 k.data.reverse ≠ ('y' :: 'e' :: 'k' :: '_' :: [])) :
    ∀ n : String, n ++ "_key" ≠ k := by
  intro n
  exact append_suffix_ne n "_key" k h

theorem keyOuts_publishApiKeys (k : String)
    (h : ∀ n : String, n ++ "_key" ≠ k) (ks : List ApiKey) :
    keyOuts k (publishApiKeys ks) = [] := by
  induction ks with
  | nil => rfl
  | cons kk tl ih =>
    have hne : (kk.name ++ "_key" == k) = false :=
      beq_eq_false_iff_ne.mpr (h kk.name)
    simp [publishApiKeys, keyOuts, outputsOf, hne] at ih ⊢
    exact ih

theorem keyOuts_summaryField_ne (k key : String) (v : JSValue)
    (h1 : key ≠ k) (h2 : key ++ "branch_status" ≠ k) :
    keyOuts k (publishSummaryField (key, v)) = [] := by
  unfold publishSummaryField
  rcases ht : v.truthy
  · rfl
  · rcases hs : v.eqStrStatus <;>
      simp [keyOuts, outputsOf, hs, beq_eq_false_iff_ne.mpr h1,
        beq_eq_false_iff_ne.mpr h2]

theorem keyOuts_summaryField_norename (k key : String) (v : JSValue)
    (h1 : key ≠ k) (hs : v.eqStrStatus = false) :
    keyOuts k (publishSummaryField (key, v)) = [] := by
  unfold publishSummaryField
  rcases ht : v.truthy
  · rfl
  · simp [keyOuts, outputsOf, hs, beq_eq_false_iff_ne.mpr h1]

theorem keyOuts_summaryField_self (k : String) (v : JSValue)
    (ht : v.truthy = true) (hs : v.eqStrStatus = false) :
    keyOuts k (publishSummaryField (k, v)) = [(k, v.toStr)] := by
  simp [publishSummaryField, keyOuts, outputsOf, ht, hs]

theorem keyOuts_summaryField_renamed (k : String) (v : JSValue)
    (ht : v.truthy = true) (hs : v.eqStrStatus = true) :
    keyOuts (k ++ "branch_status") (publishSummaryField (k, v))
      = [(k ++ "branch_status", v.toStr)] := by
  simp [publishSummaryField, keyOuts, outputsOf, ht, hs]

theorem keyOuts_summaryField_falsy (k key : String) (v : JSValue)
    (ht : v.truthy = false) :
    keyOuts k (publishSummaryField (key, v)) = [] := by
  simp [publishSummaryField, keyOuts, outputsOf, ht]

theorem keyOuts_summaryField_renamed2 (k kr : String) (v : JSValue)
    (ht : v.truthy = true) (hs : v.eqStrStatus = true)
    (hk : kr = k ++ "branch_status") :
    keyOuts kr (publishSummaryField (k, v)) = [(kr, v.toStr)] := by
  subst hk
  exact keyOuts_summaryField_renamed k v ht hs

theorem keyOuts_summaryField_self_renamed_ne (k : String) (v : JSValue)
    (hs : v.eqStrStatus = true) (h2 : k ++ "branch_status" ≠ k) :
    keyOuts k (publishSummaryField (k, v)) = [] := by
  unfold publishSummaryField
  rcases ht : v.truthy
  · rfl
  · simp [keyOuts, outputsOf, hs, beq_eq_false_iff_ne.mpr h2]

theorem keyOuts_detailField_ne (k key : String) (v : JSValue)
    (h1 : key ≠ k) :
    keyOuts k (publishDetailField (key, v)) = [] := by
  unfold publishDetailField
  rcases ht : v.truthy
  · rfl
  · simp [keyOuts, outputsOf, beq_eq_false_iff_ne.mpr h1]

theorem keyOuts_detailField_self (k : String) (v : JSValue)
    (ht : v.truthy = true) :
    keyOuts k (publishDetailField (k, v)) = [(k, v.toStr)] := by
  simp [publishDetailField, keyOuts, outputsOf, ht]

theorem keyOuts_detailField_falsy (k key : String) (v : JSValue)
    (ht : v.truthy = false) :
    keyOuts k (publishDetailField (key, v)) = [] := by
  simp [publishDetailField, keyOuts, outputsOf, ht]

theorem statusToString_ne_empty (s : BranchStatus) :
    (statusToString s == "") = false := by
  cases s <;> rfl

theorem statusToString_ne_status (s : BranchStatus) :
    (statusToString s == "status") = false := by
  cases s <;> rfl

theorem statusToString_truthy (s : BranchStatus) :
    (JSValue.str (statusToString s)).truthy = true := by
  simp [JSValue.truthy, statusToString_ne_empty]

theorem statusToString_not_eqStrStatus (s : BranchStatus) :
    (JSValue.str (statusToString s)).eqStrStatus = false := by
  simp [JSValue.eqStrStatus, statusToString_ne_status]

theorem withBranches_not_ready (branchName : String) (wfm : Bool) (bs : List Branch)
    (d : TickData) (ev : List Event)
    (h : isReady wfm (bs.find? fun b => b.name == branchName) = false) :
    withBranches branchName wfm bs d ev
      = (.notReadySleep,
         ev ++ [Event.info (waitingMsg branchName (bs.find? fun b => b.name == branchName)),
                Event.sleep 2900]) := by
  rcases hf : bs.find? fun b => b.name == branchName with _ | cb
  · simp [withBranches, hf]
  · rw [hf] at h
    simp only [isReady] at h
    simp [withBranches, hf, h]

theorem withBranches_ready (branchName : String) (wfm : Bool) (bs : List Branch)
    (cb : Branch) (d : TickData) (ev : List Event)
    (hf : (bs.find? fun b => b.name == branchName) = some cb)
    (h : isReady wfm (some cb) = true) :
    withBranches branchName wfm bs d ev
      = readyPhase branchName cb d.detailRes d.keysRes ev := by
  simp only [isReady] at h
  simp [withBranches, hf, h]

theorem tick_ok_not_ready (sbRef branchName : String) (wfm : Bool) (bs : List Branch)
    (d : TickData) (hd : d.branchesRes = .ok bs)
    (h : isReady wfm (bs.find? fun b => b.name == branchName) = false) :
    tick sbRef branchName wfm d
      = (.notReadySleep,
         [Event.callGetBranches sbRef,
          Event.info (waitingMsg branchName (bs.find? fun b => b.name == branchName)),
          Event.sleep 2900]) := by
  rcases d with ⟨br, dr, kr⟩
  cases hd
  simpa using withBranches_not_ready branchName wfm bs ⟨.ok bs, dr, kr⟩ _ h

theorem tick_err_transient (sbRef branchName : String) (wfm : Bool) (e : ApiError)
    (dr : FetchResult BranchDetails) (kr : FetchResult (List ApiKey))
    (ht : isTransient e = true) :
    tick sbRef branchName wfm ⟨.err e, dr, kr⟩
      = (.notReadySleep,
         [Event.callGetBranches sbRef,
          Event.warning ("Failed fetching fetching branches: " ++ e.message),
          Event.info (waitingMsg branchName none),
          Event.sleep 2900]) := by
  simp [tick, ht, withBranches, List.find?]

theorem tick_err_fatal (sbRef branchName : String) (wfm : Bool) (e : ApiError)
    (dr : FetchResult BranchDetails) (kr : FetchResult (List ApiKey))
    (ht : isTransient e = false) :
    tick sbRef branchName wfm ⟨.err e, dr, kr⟩
      = (.fatal ⟨"Failed fetching fetching branches", e⟩,
         [Event.callGetBranches sbRef]) := by
  simp [tick, ht]

theorem tick_ready (sbRef branchName : String) (wfm : Bool) (bs : List Branch)
    (cb : Branch) (dr : FetchResult BranchDetails) (kr : FetchResult (List ApiKey))
    (hf : (bs.find? fun b => b.name == branchName) = some cb)
    (h : isReady wfm (some cb) = true) :
    tick sbRef branchName wfm ⟨.ok bs, dr, kr⟩
      = readyPhase branchName cb dr kr [Event.callGetBranches sbRef] := by
  simpa [tick] using withBranches_ready branchName wfm bs cb ⟨.ok bs, dr, kr⟩ _ hf h

theorem tick_success (sbRef branchName : String) (wfm : Bool) (bs : List Branch)
    (cb : Branch) (det : BranchDetails) (ks : List ApiKey)
    (hf : (bs.find? fun b => b.name == branchName) = some cb)
    (h : isReady wfm (some cb) = true) :
    tick sbRef branchName wfm ⟨.ok bs, .ok det, .ok ks⟩
      = (.success, successTrace sbRef branchName cb det ks) := by
  rw [tick_ready sbRef branchName wfm bs cb (.ok det) (.ok ks) hf h]
  simp [readyPhase, successTrace]

theorem tick_detail_transient (sbRef branchName : String) (wfm : Bool) (bs : List Branch)
    (cb : Branch) (e : ApiError) (kr : FetchResult (List ApiKey))
    (hf : (bs.find? fun b => b.name == branchName) = some cb)
    (h : isReady wfm (some cb) = true) (ht : isTransient e = true) :
    tick sbRef branchName wfm ⟨.ok bs, .err e, kr⟩
      = (.skipNoSleep,
         [Event.callGetBranches sbRef,
          Event.info ("Branch " ++ branchName ++ " found, status: " ++ statusToString cb.status),
          Event.callGetBranchDetails cb.id,
          Event.warning ("Error fetching branch details: " ++ e.message),
          Event.warning "Branch details not found"]) := by
  rw [tick_ready sbRef branchName wfm bs cb (.err e) kr hf h]
  simp [readyPhase, ht]

theorem tick_detail_fatal (sbRef branchName : String) (wfm : Bool) (bs : List Branch)
    (cb : Branch) (e : ApiError) (kr : FetchResult (List ApiKey))
    (hf : (bs.find? fun b => b.name == branchName) = some cb)
    (h : isReady wfm (some cb) = true) (ht : isTransient e = false) :
    tick sbRef branchName wfm ⟨.ok bs, .err e, kr⟩
      = (.fatal ⟨"Error fetching branch details", e⟩,
         [Event.callGetBranches sbRef,
          Event.info ("Branch " ++ branchName ++ " found, status: " ++ statusToString cb.status),
          Event.callGetBranchDetails cb.id]) := by
  rw [tick_ready sbRef branchName wfm bs cb (.err e) kr hf h]
  simp [readyPhase, ht]

theorem tick_keys_transient (sbRef branchName : String) (wfm : Bool) (bs : List Branch)
    (cb : Branch) (det : BranchDetails) (e : ApiError)
    (hf : (bs.find? fun b => b.name == branchName) = some cb)
    (h : isReady wfm (some cb) = true) (ht : isTransient e = true) :
    tick sbRef branchName wfm ⟨.ok bs, .ok det, .err e⟩
      = (.skipNoSleep,
         [Event.callGetBranches sbRef,
          Event.info ("Branch " ++ branchName ++ " found, status: " ++ statusToString cb.status),
          Event.callGetBranchDetails cb.id,
          Event.callGetProjectApiKeys cb.project_ref,
          Event.warning ("Error fetching api keys: " ++ e.message),
          Event.warning "Api keys not found"]) := by
  rw [tick_ready sbRef branchName wfm bs cb (.ok det) (.err e) hf h]
  simp [readyPhase, ht]

theorem tick_keys_fatal (sbRef branchName : String) (wfm : Bool) (bs : List Branch)
    (cb : Branch) (det : BranchDetails) (e : ApiError)
    (hf : (bs.find? fun b => b.name == branchName) = some cb)
    (h : isReady wfm (some cb) = true) (ht : isTransient e = false) :
    tick sbRef branchName wfm ⟨.ok bs, .ok det, .err e⟩
      = (.fatal ⟨"Error fetching api keys", e⟩,
         [Event.callGetBranches sbRef,
          Event.info ("Branch " ++ branchName ++ " found, status: " ++ statusToString cb.status),
          Event.callGetBranchDetails cb.id,
          Event.callGetProjectApiKeys cb.project_ref]) := by
  rw [tick_ready sbRef branchName wfm bs cb (.ok det) (.err e) hf h]
  simp [readyPhase, ht]

theorem keyOuts_successTrace (k : String)
    (hk : ∀ n : String, n ++ "_key" ≠ k)
    (sbRef bn : String) (cb : Branch) (det : BranchDetails) (ks : List ApiKey) :
    keyOuts k (successTrace sbRef bn cb det ks)
      = keyOuts k (publishBranchFields cb) ++ keyOuts k (publishDetailFields det)
        ++ keyOuts k [Event.setOutput "api_url" (apiUrl det),
                      Event.setOutput "graphql_url" (graphqlUrl det)] := by
  have hb : keyOuts k [Event.callGetBranches sbRef,
      Event.info ("Branch " ++ bn ++ " found, status: " ++ statusToString cb.status),
      Event.callGetBranchDetails cb.id,
      Event.callGetProjectApiKeys cb.project_ref] = [] := by
    simp [keyOuts]
  have ha := keyOuts_publishApiKeys k hk ks
  have hu : keyOuts k [Event.setOutput "api_url" (apiUrl det),
      Event.setOutput "graphql_url" (graphqlUrl det), Event.info "success"]
      = keyOuts k [Event.setOutput "api_url" (apiUrl det),
                   Event.setOutput "graphql_url" (graphqlUrl det)] := by
    simp [keyOuts]
  simp only [successTrace, keyOuts_append, hb, ha, hu, List.nil_append, List.append_nil]

theorem keyOuts_status_branchFields (cb : Branch) :
    keyOuts "status" (publishBranchFields cb)
      = [("status", statusToString cb.status)] := by
  simp only [publishBranchFields, branchFieldValues, List.map_cons, List.map_nil,
    List.flatten_cons, List.flatten_nil, keyOuts_append]
  rw [keyOuts_summaryField_ne _ _ _ (by decide) (by decide)]
  rw [keyOuts_summaryField_ne _ _ _ (by decide) (by decide)]
  rw [keyOuts_summaryField_ne _ _ _ (by decide) (by decide)]
  rw [keyOuts_summaryField_ne _ _ _ (by decide) (by decide)]
  rw [keyOuts_summaryField_ne _ _ _ (by decide) (by decide)]
  rw [keyOuts_summaryField_ne _ _ _ (by decide) (by decide)]
  rw [keyOuts_summaryField_ne _ _ _ (by decide) (by decide)]
  rw [keyOuts_summaryField_self "status" _ (statusToString_truthy _)
    (statusToString_not_eqStrStatus _)]
  rw [keyOuts_summaryField_ne _ _ _ (by decide) (by decide)]
  rw [keyOuts_summaryField_ne _ _ _ (by decide) (by decide)]
  simp [keyOuts, JSValue.toStr]

theorem keyOuts_status_detailFields (det : BranchDetails) :
    keyOuts "status" (publishDetailFields det) = [] := by
  simp only [publishDetailFields, detailFieldValues, List.map_cons, List.map_nil,
    List.flatten_cons, List.flatten_nil, keyOuts_append]
  rw [keyOuts_detailField_ne _ _ _ (by decide)]
  rw [keyOuts_detailField_ne _ _ _ (by decide)]
  rw [keyOuts_detailField_ne _ _ _ (by decide)]
  rw [keyOuts_detailField_ne _ _ _ (by decide)]
  rw [keyOuts_detailField_ne _ _ _ (by decide)]
  simp [keyOuts]

theorem maskOrdered_pair (k v : String) (tail : List Event) (seen : List String)
    (h : maskOrdered (v :: seen) tail = true) :
    maskOrdered seen (Event.setSecret v :: Event.setOutput k v :: tail) = true := by
  simp [maskOrdered, h]

theorem maskOrdered_publishApiKeys (ks : List ApiKey) (rest : List Event)
    (h : ∀ seen, maskOrdered seen rest = true) :
    ∀ seen, maskOrdered seen (publishApiKeys ks ++ rest) = true := by
  induction ks with
  | nil => simpa [publishApiKeys] using h
  | cons kk tl ih =>
    intro seen
    have e : publishApiKeys (kk :: tl) ++ rest
        = Event.setSecret kk.api_key
          :: Event.setOutput (kk.name ++ "_key") kk.api_key
          :: (publishApiKeys tl ++ rest) := by
      simp [publishApiKeys]
    rw [e]
    exact maskOrdered_pair _ _ _ _ (ih (kk.api_key :: seen))

theorem maskOrdered_summaryField (kv : String × JSValue) (rest : List Event)
    (h : ∀ seen, maskOrdered seen rest = true) :
    ∀ seen, maskOrdered seen (publishSummaryField kv ++ rest) = true := by
  intro seen
  unfold publishSummaryField
  split
  · exact maskOrdered_pair _ _ _ _ (h _)
  · simpa using h seen

theorem maskOrdered_detailField (kv : String × JSValue) (rest : List Event)
    (h : ∀ seen, maskOrdered seen rest = true) :
    ∀ seen, maskOrdered seen (publishDetailField kv ++ rest) = true := by
  intro seen
  unfold publishDetailField
  split
  · exact maskOrdered_pair _ _ _ _ (h _)
  · simpa using h seen

theorem maskOrdered_publishBranchFields (b : Branch) (rest : List Event)
    (h : ∀ seen, maskOrdered seen rest = true) :
    ∀ seen, maskOrdered seen (publishBranchFields b ++ rest) = true := by
  have e : publishBranchFields b ++ rest
      = publishSummaryField ("id", .str b.id)
        ++ (publishSummaryField ("name", .str b.name)
        ++ (publishSummaryField ("project_ref", .str b.project_ref)
        ++ (publishSummaryField ("parent_project_ref", .str b.parent_project_ref)
        ++ (publishSummaryField ("git_branch",
              match b.git_branch with | some s => .str s | none => .undef)
        ++ (publishSummaryField ("pr_number",
              match b.pr_number with | some n => .num n | none => .undef)
        ++ (publishSummaryField ("reset_on_push", .bool b.reset_on_push)
        ++ (publishSummaryField ("status", .str (statusToString b.status))
        ++ (publishSummaryField ("created_at", .str b.created_at)
        ++ (publishSummaryField ("updated_at", .str b.updated_at)
        ++ rest))))))))) := by
    simp [publishBranchFields, branchFieldValues]
  rw [e]
  apply maskOrdered_summaryField
  apply maskOrdered_summaryField
  apply maskOrdered_summaryField
  apply maskOrdered_summaryField
  apply maskOrdered_summaryField
  apply maskOrdered_summaryField
  apply maskOrdered_summaryField
  apply maskOrdered_summaryField
  apply maskOrdered_summaryField
  apply maskOrdered_summaryField
  exact h

theorem maskOrdered_publishDetailFields (d : BranchDetails) (rest : List Event)
    (h : ∀ seen, maskOrdered seen rest = true) :
    ∀ seen, maskOrdered seen (publishDetailFields d ++ rest) = true := by
  have e : publishDetailFields d ++ rest
      = publishDetailField ("db_host", d.db_host)
        ++ (publishDetailField ("db_port", d.db_port)
        ++ (publishDetailField ("db_user", d.db_user)
        ++ (publishDetailField ("db_pass", d.db_pass)
        ++ (publishDetailField ("jwt_secret", d.jwt_secret)
        ++ rest)))) := by
    simp [publishDetailFields, detailFieldValues]
  rw [e]
  apply maskOrdered_detailField
  apply maskOrdered_detailField
  apply maskOrdered_detailField
  apply maskOrdered_detailField
  apply maskOrdered_detailField
  exact h

theorem secretsSeen_publishApiKeys (ks : List ApiKey) :
    secretsSeen (publishApiKeys ks) = ks.map fun k => k.api_key := by
  induction ks with
  | nil => rfl
  | cons kk tl ih => simp [publishApiKeys, secretsSeen_append] at ih ⊢; exact ih

theorem secretsSeen_summaryFlat (kvs : List (String × JSValue)) :
    secretsSeen ((kvs.map publishSummaryField).flatten) = truthySecrets kvs := by
  induction kvs with
  | nil => rfl
  | cons kv tl ih =>
    simp only [List.map_cons, List.flatten_cons, secretsSeen_append, ih, truthySecrets,
      List.filterMap_cons]
    unfold publishSummaryField
    split
    · simp [truthySecrets, *]
    · simp [truthySecrets, *]

theorem secretsSeen_detailFlat (kvs : List (String × JSValue)) :
    secretsSeen ((kvs.map publishDetailField).flatten) = truthySecrets kvs := by
  induction kvs with
  | nil => rfl
  | cons kv tl ih =>
    simp only [List.map_cons, List.flatten_cons, secretsSeen_append, ih, truthySecrets,
      List.filterMap_cons]
    unfold publishDetailField
    split
    · simp [truthySecrets, *]
    · simp [truthySecrets, *]

theorem sleep_not_mem_publishApiKeys (ms : Nat) (ks : List ApiKey) :
    Event.sleep ms ∉ publishApiKeys ks := by
  induction ks with
  | nil => simp [publishApiKeys]
  | cons kk tl ih => simp [publishApiKeys]

theorem sleep_not_mem_summaryField (ms : Nat) (kv : String × JSValue) :
    Event.sleep ms ∉ publishSummaryField kv := by
  unfold publishSummaryField
  split <;> simp

theorem sleep_not_mem_publishBranchFields (ms : Nat) (b : Branch) :
    Event.sleep ms ∉ publishBranchFields b := by
  simp only [publishBranchFields, branchFieldValues, List.map_cons, List.map_nil,
    List.flatten_cons, List.flatten_nil, List.mem_append, List.not_mem_nil, or_false]
  push_neg
  refine ⟨?_, ?_, ?_, ?_, ?_, ?_, ?_, ?_, ?_, ?_⟩ <;> exact sleep_not_mem_summaryField ms _

theorem sleep_not_mem_detailField (ms : Nat) (kv : String × JSValue) :
    Event.sleep ms ∉ publishDetailField kv := by
  unfold publishDetailField
  split <;> simp

theorem sleep_not_mem_publishDetailFields (ms : Nat) (d : BranchDetails) :
    Event.sleep ms ∉ publishDetailFields d := by
  simp only [publishDetailFields, detailFieldValues, List.map_cons, List.map_nil,
    List.flatten_cons, List.flatten_nil, List.mem_append, List.not_mem_nil, or_false]
  push_neg
  refine ⟨?_, ?_, ?_, ?_, ?_⟩ <;> exact sleep_not_mem_detailField ms _

theorem outputsOf_successTrace (sbRef bn : String) (cb : Branch) (det : BranchDetails)
    (ks : List ApiKey) :
    outputsOf (successTrace sbRef bn cb det ks)
      = outputsOf (publishApiKeys ks) ++ outputsOf (publishBranchFields cb)
        ++ outputsOf (publishDetailFields det)
        ++ [("api_url", apiUrl det), ("graphql_url", graphqlUrl det)] := by
  simp [successTrace, outputsOf_append]

theorem outputs_empty_of_not_success (sbRef bn : String) (wfm : Bool) (d : TickData)
    (h : (tick sbRef bn wfm d).1 ≠ .success) :
    outputsOf (tick sbRef bn wfm d).2 = [] := by
  rcases d with ⟨br, dr, kr⟩
  rcases br with bs | e
  · rcases hf : bs.find? fun b => b.name == bn with _ | cb
    · have hnr : isReady wfm (bs.find? fun b => b.name == bn) = false := by
        rw [hf]; rfl
      rw [tick_ok_not_ready sbRef bn wfm bs _ rfl hnr]
      simp
    · rcases hr : isReady wfm (some cb)
      · have hnr : isReady wfm (bs.find? fun b => b.name == bn) = false := by
          rw [hf]; exact hr
        rw [tick_ok_not_ready sbRef bn wfm bs _ rfl hnr]
        simp
      · rcases dr with det | e
        · rcases kr with ks | e2
          · exact absurd (by rw [tick_success sbRef bn wfm bs cb det ks hf hr]) h
          · rcases ht : isTransient e2
            · rw [tick_keys_fatal sbRef bn wfm bs cb det e2 hf hr ht]; simp
            · rw [tick_keys_transient sbRef bn wfm bs cb det e2 hf hr ht]; simp
        · rcases ht : isTransient e
          · rw [tick_detail_fatal sbRef bn wfm bs cb e kr hf hr ht]; simp
          · rw [tick_detail_transient sbRef bn wfm bs cb e kr hf hr ht]; simp
  · rcases ht : isTransient e
    · rw [tick_err_fatal sbRef bn wfm e dr kr ht]; simp
    · rw [tick_err_transient sbRef bn wfm e dr kr ht]; simp

/-! ### Claim theorems -/

/-- C1: the Readiness Classifier is a pure function of candidate presence,
status and the wait-for-migrations flag.  With the flag off, ready exactly
when a candidate is present; with the flag on, ready exactly when a
candidate is present with status MIGRATIONS_PASSED or FUNCTIONS_DEPLOYED;
on a tick whose listing yields a not-ready classification the loop
continues (the iteration ends in the sleep-and-retry outcome). -/
theorem c1_readiness_classifier (wfm : Bool) (cb : Option Branch) :
    (wfm = false → (isReady wfm cb = true ↔ cb.isSome = true))
    ∧ (wfm = true → (isReady wfm cb = true ↔
        ∃ b, cb = some b ∧ (b.status = BranchStatus.MIGRATIONS_PASSED
          ∨ b.status = BranchStatus.FUNCTIONS_DEPLOYED)))
    ∧ (∀ (sbRef bn : String) (d : TickData) (bs : List Branch),
        d.branchesRes = .ok bs →
        isReady wfm (bs.find? fun b => b.name == bn) = false →
        (tick sbRef bn wfm d).1 = .notReadySleep) := by
  refine ⟨?_, ?_, ?_⟩
  · rintro rfl
    cases cb <;> simp [isReady]
  · rintro rfl
    cases cb with
    | none => simp [isReady]
    | some b =>
      obtain ⟨i, n, pr, ppr, gb, pn, rp, st, ca, ua⟩ := b
      cases st <;> simp [isReady, statusToString]
  · intro sbRef bn d bs hd hnr
    rcases d with ⟨br, dr, kr⟩
    cases hd
    rw [tick_ok_not_ready sbRef bn wfm bs _ rfl hnr]

/-- Witness for C1 at concrete inputs. -/
theorem c1_readiness_classifier_witness :
    (isReady false (some sampleBranch) = true ↔ (some sampleBranch).isSome = true)
    ∧ (isReady true (some sampleBranch) = true ↔
        ∃ b, some sampleBranch = some b ∧ (b.status = BranchStatus.MIGRATIONS_PASSED
          ∨ b.status = BranchStatus.FUNCTIONS_DEPLOYED))
    ∧ (tick "proj" "nope" true sampleData).1 = .notReadySleep :=
  ⟨(c1_readiness_classifier false (some sampleBranch)).1 rfl,
   (c1_readiness_classifier true (some sampleBranch)).2.1 rfl,
   (c1_readiness_classifier true (some sampleBranch)).2.2 "proj" "nope" sampleData []
     rfl (by decide)⟩

/-- C2: once the elapsed time at a condition check is at or beyond
`timeout * 1000` milliseconds, the loop starts no further work: it returns
the timeout failure at once, its remaining trace holds no remote call, and
the failure message names the branch and mentions the timeout. -/
theorem c2_timeout_guard (sbRef bn : String) (wfm : Bool)
    (timeoutSec start t : Int) (d : TickData) (rest : List Step)
    (h : ¬(t - start < timeoutSec * 1000)) :
    runLoop sbRef bn wfm timeoutSec start (⟨t, d⟩ :: rest)
      = (.timedOut, [Event.setFailed (timeoutMsg bn)])
    ∧ (∀ e ∈ (runLoop sbRef bn wfm timeoutSec start (⟨t, d⟩ :: rest)).2,
        isRemoteCall e = false)
    ∧ timeoutMsg bn = "Timeout waiting for branch " ++ bn ++ " to be created" := by
  have he : runLoop sbRef bn wfm timeoutSec start (⟨t, d⟩ :: rest)
      = (.timedOut, [Event.setFailed (timeoutMsg bn)]) := by
    simp [runLoop, h]
  refine ⟨he, ?_, rfl⟩
  rw [he]
  intro e hm
  simp at hm
  subst hm
  rfl

/-- Witness for C2 at concrete inputs. -/
theorem c2_timeout_guard_witness :
    ¬((5000:Int) - 0 < 5 * 1000)
    ∧ runLoop "proj" "feat-x" false 5 0 [⟨5000, sampleData⟩]
        = (.timedOut, [Event.setFailed (timeoutMsg "feat-x")]) :=
  ⟨by decide,
   (c2_timeout_guard "proj" "feat-x" false 5 0 5000 sampleData [] (by decide)).1⟩

/-- C3: a transient (429 or 500-class) failure of the list-environments
call does not propagate: the iteration behaves as if the listing were
empty and the loop continues; any other failure aborts the wait at once
with a fatal error whose cause is the underlying remote error. -/
theorem c3_transient_fatal_split (sbRef bn : String) (wfm : Bool) (e : ApiError)
    (dr : FetchResult BranchDetails) (kr : FetchResult (List ApiKey))
    (timeoutSec start t : Int) (rest : List Step) :
    (isTransient e = true →
      (tick sbRef bn wfm ⟨.err e, dr, kr⟩).1 = (tick sbRef bn wfm ⟨.ok [], dr, kr⟩).1
      ∧ (tick sbRef bn wfm ⟨.err e, dr, kr⟩).1 = .notReadySleep
      ∧ (t - start < timeoutSec * 1000 →
          (runLoop sbRef bn wfm timeoutSec start (⟨t, ⟨.err e, dr, kr⟩⟩ :: rest)).1
            = (runLoop sbRef bn wfm timeoutSec start rest).1))
    ∧ (isTransient e = false → t - start < timeoutSec * 1000 →
        runLoop sbRef bn wfm timeoutSec start (⟨t, ⟨.err e, dr, kr⟩⟩ :: rest)
          = (.fatal ⟨"Failed fetching fetching branches", e⟩,
             [Event.callGetBranches sbRef])) := by
  constructor
  · intro ht
    have h1 := tick_err_transient sbRef bn wfm e dr kr ht
    have h2 := tick_ok_not_ready sbRef bn wfm [] ⟨.ok [], dr, kr⟩ rfl rfl
    refine ⟨by rw [h1, h2], by rw [h1], ?_⟩
    intro hlt
    simp [runLoop, hlt, h1]
  · intro ht hlt
    simp [runLoop, hlt, tick_err_fatal sbRef bn wfm e dr kr ht]

/-- Witness for C3 at concrete inputs, one per branch of the split. -/
theorem c3_transient_fatal_split_witness :
    isTransient ⟨429, "r"⟩ = true
    ∧ (tick "proj" "b" false ⟨.err ⟨429, "r"⟩, .ok sampleDetail, .ok []⟩).1
        = .notReadySleep
    ∧ isTransient ⟨404, "n"⟩ = false
    ∧ ((0:Int) - 0 < 5 * 1000)
    ∧ runLoop "proj" "b" false 5 0 [⟨0, ⟨.err ⟨404, "n"⟩, .ok sampleDetail, .ok []⟩⟩]
        = (.fatal ⟨"Failed fetching fetching branches", ⟨404, "n"⟩⟩,
           [Event.callGetBranches "proj"]) :=
  ⟨by decide,
   ((c3_transient_fatal_split "proj" "b" false ⟨429, "r"⟩ (.ok sampleDetail) (.ok [])
      5 0 0 []).1 (by decide)).2.1,
   by decide, by decide,
   (c3_transient_fatal_split "proj" "b" false ⟨404, "n"⟩ (.ok sampleDetail) (.ok [])
      5 0 0 []).2 (by decide) (by decide)⟩

/-- C4 amended: an iteration whose listing yields no ready candidate emits
the progress notice naming the branch (and its status when known) and then
sleeps the fixed 2900 ms; but an iteration skipped by a transient detail
or credential fetch failure re-enters the loop at once, with warnings
only: no progress notice and no sleep.  Every sleep the loop ever performs
is the fixed 2900 ms. -/
theorem c4_fixed_interval (sbRef bn : String) (wfm : Bool) :
    (∀ (bs : List Branch) (d : TickData), d.branchesRes = .ok bs →
      isReady wfm (bs.find? fun b => b.name == bn) = false →
      tick sbRef bn wfm d
        = (.notReadySleep,
           [Event.callGetBranches sbRef,
            Event.info (waitingMsg bn (bs.find? fun b => b.name == bn)),
            Event.sleep 2900]))
    ∧ (∀ (bs : List Branch) (cb : Branch) (e : ApiError) (kr : FetchResult (List ApiKey)),
        (bs.find? fun b => b.name == bn) = some cb → isReady wfm (some cb) = true →
        isTransient e = true →
        tick sbRef bn wfm ⟨.ok bs, .err e, kr⟩
          = (.skipNoSleep,
             [Event.callGetBranches sbRef,
              Event.info ("Branch " ++ bn ++ " found, status: " ++ statusToString cb.status),
              Event.callGetBranchDetails cb.id,
              Event.warning ("Error fetching branch details: " ++ e.message),
              Event.warning "Branch details not found"]))
    ∧ (∀ (bs : List Branch) (cb : Branch) (det : BranchDetails) (e : ApiError),
        (bs.find? fun b => b.name == bn) = some cb → isReady wfm (some cb) = true →
        isTransient e = true →
        tick sbRef bn wfm ⟨.ok bs, .ok det, .err e⟩
          = (.skipNoSleep,
             [Event.callGetBranches sbRef,
              Event.info ("Branch " ++ bn ++ " found, status: " ++ statusToString cb.status),
              Event.callGetBranchDetails cb.id,
              Event.callGetProjectApiKeys cb.project_ref,
              Event.warning ("Error fetching api keys: " ++ e.message),
              Event.warning "Api keys not found"]))
    ∧ (∀ (d : TickData) (ms : Nat),
        Event.sleep ms ∈ (tick sbRef bn wfm d).2 → ms = 2900) := by
  refine ⟨?_, ?_, ?_, ?_⟩
  · intro bs d hd hnr
    rcases d with ⟨br, dr, kr⟩
    cases hd
    exact tick_ok_not_ready sbRef bn wfm bs _ rfl hnr
  · intro bs cb e kr hf hr ht
    exact tick_detail_transient sbRef bn wfm bs cb e kr hf hr ht
  · intro bs cb det e hf hr ht
    exact tick_keys_transient sbRef bn wfm bs cb det e hf hr ht
  · intro d ms hm
    rcases d with ⟨br, dr, kr⟩
    rcases br with bs | e
    · rcases hf : bs.find? fun b => b.name == bn with _ | cb
      · rw [tick_ok_not_ready sbRef bn wfm bs _ rfl (by rw [hf]; rfl)] at hm
        simp at hm
        exact hm
      · rcases hr : isReady wfm (some cb)
        · rw [tick_ok_not_ready sbRef bn wfm bs _ rfl (by rw [hf]; exact hr)] at hm
          simp at hm
          exact hm
        · rcases dr with det | e
          · rcases kr with ks | e2
            · rw [tick_success sbRef bn wfm bs cb det ks hf hr] at hm
              simp [successTrace, sleep_not_mem_publishApiKeys,
                sleep_not_mem_publishBranchFields, sleep_not_mem_publishDetailFields] at hm
            · rcases ht : isTransient e2
              · rw [tick_keys_fatal sbRef bn wfm bs cb det e2 hf hr ht] at hm
                simp at hm
              · rw [tick_keys_transient sbRef bn wfm bs cb det e2 hf hr ht] at hm
                simp at hm
          · rcases ht : isTransient e
            · rw [tick_detail_fatal sbRef bn wfm bs cb e kr hf hr ht] at hm
              simp at hm
            · rw [tick_detail_transient sbRef bn wfm bs cb e kr hf hr ht] at hm
              simp at hm
    · rcases ht : isTransient e
      · rw [tick_err_fatal sbRef bn wfm e dr kr ht] at hm
        simp at hm
      · rw [tick_err_transient sbRef bn wfm e dr kr ht] at hm
        simp at hm
        exact hm

/-- Witness for C4 amended at concrete inputs. -/
theorem c4_fixed_interval_witness :
    tick "proj" "b" false sampleData
      = (.notReadySleep,
         [Event.callGetBranches "proj",
          Event.info (waitingMsg "b" none),
          Event.sleep 2900])
    ∧ (tick "proj" "feat-x" true
        ⟨.ok [sampleBranch], .err ⟨500, "boom"⟩, .ok [sampleKey]⟩).1 = .skipNoSleep := by
  constructor
  · have h := (c4_fixed_interval "proj" "b" false).1 [] sampleData rfl (by decide)
    simpa using h
  · rw [((c4_fixed_interval "proj" "feat-x" true).2.1 [sampleBranch] sampleBranch
      ⟨500, "boom"⟩ (.ok [sampleKey]) (by decide) (by decide) (by decide))]

/-- Counterexample for C4 as stated: the ready iteration whose detail
fetch fails transiently publishes nothing, yet emits no progress notice
and no sleep at all: the loop re-enters immediately instead of suspending
for the fixed interval. -/
theorem c4_counterexample :
    (tick "proj" "feat-x" true
        ⟨.ok [sampleBranch], .err ⟨500, "boom"⟩, .ok [sampleKey]⟩).1 = .skipNoSleep
    ∧ outputsOf (tick "proj" "feat-x" true
        ⟨.ok [sampleBranch], .err ⟨500, "boom"⟩, .ok [sampleKey]⟩).2 = []
    ∧ Event.info (waitingMsg "feat-x" (some sampleBranch))
        ∉ (tick "proj" "feat-x" true
            ⟨.ok [sampleBranch], .err ⟨500, "boom"⟩, .ok [sampleKey]⟩).2
    ∧ (∀ ms : Nat, Event.sleep ms
        ∉ (tick "proj" "feat-x" true
            ⟨.ok [sampleBranch], .err ⟨500, "boom"⟩, .ok [sampleKey]⟩).2) := by
  have he : tick "proj" "feat-x" true
      ⟨.ok [sampleBranch], .err ⟨500, "boom"⟩, .ok [sampleKey]⟩
      = (.skipNoSleep,
         [Event.callGetBranches "proj",
          Event.info "Branch feat-x found, status: MIGRATIONS_PASSED",
          Event.callGetBranchDetails "i1",
          Event.warning "Error fetching branch details: boom",
          Event.warning "Branch details not found"]) := by decide
  rw [he]
  refine ⟨rfl, rfl, by decide, ?_⟩
  intro ms
  simp

/-- C6: the rename of the status output key never fires for the status
attribute: the rename check compares the attribute value, not its name,
to the literal `status`, and no status enum value is that literal, so on
the successful iteration the status is published exactly once under the
key `status` and the renamed key `statusbranch_status` never appears. -/
theorem c6_status_never_renamed (sbRef bn : String) (wfm : Bool) (bs : List Branch)
    (cb : Branch) (det : BranchDetails) (ks : List ApiKey)
    (hf : (bs.find? fun b => b.name == bn) = some cb)
    (hr : isReady wfm (some cb) = true) :
    keyOuts "status" (tick sbRef bn wfm ⟨.ok bs, .ok det, .ok ks⟩).2
      = [("status", statusToString cb.status)]
    ∧ keyOuts "statusbranch_status"
        (tick sbRef bn wfm ⟨.ok bs, .ok det, .ok ks⟩).2 = [] := by
  rw [tick_success sbRef bn wfm bs cb det ks hf hr]
  constructor
  · rw [keyOuts_successTrace "status" (append_key_ne _ (by decide)) sbRef bn cb det ks]
    rw [keyOuts_status_branchFields, keyOuts_status_detailFields]
    simp [keyOuts]
  · rw [keyOuts_successTrace "statusbranch_status" (append_key_ne _ (by decide))
      sbRef bn cb det ks]
    have hb : keyOuts "statusbranch_status" (publishBranchFields cb) = [] := by
      simp only [publishBranchFields, branchFieldValues, List.map_cons, List.map_nil,
        List.flatten_cons, List.flatten_nil, keyOuts_append]
      rw [keyOuts_summaryField_ne _ _ _ (by decide) (by decide)]
      rw [keyOuts_summaryField_ne _ _ _ (by decide) (by decide)]
      rw [keyOuts_summaryField_ne _ _ _ (by decide) (by decide)]
      rw [keyOuts_summaryField_ne _ _ _ (by decide) (by decide)]
      rw [keyOuts_summaryField_ne _ _ _ (by decide) (by decide)]
      rw [keyOuts_summaryField_ne _ _ _ (by decide) (by decide)]
      rw [keyOuts_summaryField_ne _ _ _ (by decide) (by decide)]
      rw [keyOuts_summaryField_norename _ _ _ (by decide)
        (statusToString_not_eqStrStatus _)]
      rw [keyOuts_summaryField_ne _ _ _ (by decide) (by decide)]
      rw [keyOuts_summaryField_ne _ _ _ (by decide) (by decide)]
      simp [keyOuts]
    have hd : keyOuts "statusbranch_status" (publishDetailFields det) = [] := by
      simp only [publishDetailFields, detailFieldValues, List.map_cons, List.map_nil,
        List.flatten_cons, List.flatten_nil, keyOuts_append]
      rw [keyOuts_detailField_ne _ _ _ (by decide)]
      rw [keyOuts_detailField_ne _ _ _ (by decide)]
      rw [keyOuts_detailField_ne _ _ _ (by decide)]
      rw [keyOuts_detailField_ne _ _ _ (by decide)]
      rw [keyOuts_detailField_ne _ _ _ (by decide)]
      simp [keyOuts]
    rw [hb, hd]
    simp [keyOuts]

/-- Witness for C6 at concrete inputs. -/
theorem c6_status_never_renamed_witness :
    ([sampleBranch].find? fun b => b.name == "feat-x") = some sampleBranch
    ∧ isReady true (some sampleBranch) = true
    ∧ keyOuts "status"
        (tick "proj" "feat-x" true
          ⟨.ok [sampleBranch], .ok sampleDetail, .ok [sampleKey]⟩).2
      = [("status", statusToString sampleBranch.status)] :=
  ⟨by decide, by decide,
   (c6_status_never_renamed "proj" "feat-x" true [sampleBranch] sampleBranch
      sampleDetail [sampleKey] (by decide) (by decide)).1⟩

/-- C7: publishing is all-or-nothing per iteration: an iteration that does
not end in success publishes no output at all, and the successful
iteration publishes the full output set (credential key outputs, truthy
summary outputs, truthy detail outputs, and the two URL outputs) in one
batch. -/
theorem c7_all_or_nothing (sbRef bn : String) (wfm : Bool) (d : TickData) :
    ((tick sbRef bn wfm d).1 ≠ .success → outputsOf (tick sbRef bn wfm d).2 = [])
    ∧ (∀ (bs : List Branch) (cb : Branch) (det : BranchDetails) (ks : List ApiKey),
        d = ⟨.ok bs, .ok det, .ok ks⟩ →
        (bs.find? fun b => b.name == bn) = some cb →
        isReady wfm (some cb) = true →
        (tick sbRef bn wfm d).1 = .success
        ∧ outputsOf (tick sbRef bn wfm d).2
          = outputsOf (publishApiKeys ks) ++ outputsOf (publishBranchFields cb)
            ++ outputsOf (publishDetailFields det)
            ++ [("api_url", apiUrl det), ("graphql_url", graphqlUrl det)]) := by
  refine ⟨outputs_empty_of_not_success sbRef bn wfm d, ?_⟩
  rintro bs cb det ks rfl hf hr
  rw [tick_success sbRef bn wfm bs cb det ks hf hr]
  exact ⟨rfl, outputsOf_successTrace sbRef bn cb det ks⟩

/-- Witness for C7 at concrete inputs. -/
theorem c7_all_or_nothing_witness :
    outputsOf (tick "proj" "b" false sampleData).2 = []
    ∧ (tick "proj" "feat-x" true
        ⟨.ok [sampleBranch], .ok sampleDetail, .ok [sampleKey]⟩).1 = .success :=
  ⟨(c7_all_or_nothing "proj" "b" false sampleData).1 (by decide),
   ((c7_all_or_nothing "proj" "feat-x" true
      ⟨.ok [sampleBranch], .ok sampleDetail, .ok [sampleKey]⟩).2
      [sampleBranch] sampleBranch sampleDetail [sampleKey] rfl
      (by decide) (by decide)).1⟩

/-- C5 amended: on the successful iteration, every truthy summary
attribute whose raw value is not the literal string `status` appears as
exactly one output under its documented name with its stringified value;
a truthy summary attribute whose raw value is the literal `status` is
instead published exactly once under its name with `branch_status`
appended, and not under its documented name; every truthy detail
attribute appears as exactly one output under its documented name; falsy
attributes produce no output under their name. -/
theorem c5_round_trip (sbRef bn : String) (wfm : Bool) (bs : List Branch)
    (cb : Branch) (det : BranchDetails) (ks : List ApiKey)
    (hf : (bs.find? fun b => b.name == bn) = some cb)
    (hr : isReady wfm (some cb) = true) :
    (∀ (key : String) (v : JSValue), (key, v) ∈ branchFieldValues cb →
      (v.truthy = true → v.eqStrStatus = false →
        keyOuts key (tick sbRef bn wfm ⟨.ok bs, .ok det, .ok ks⟩).2
          = [(key, v.toStr)])
      ∧ (v.truthy = true → v.eqStrStatus = true →
        keyOuts key (tick sbRef bn wfm ⟨.ok bs, .ok det, .ok ks⟩).2 = []
        ∧ keyOuts (key ++ "branch_status")
            (tick sbRef bn wfm ⟨.ok bs, .ok det, .ok ks⟩).2
          = [(key ++ "branch_status", v.toStr)])
      ∧ (v.truthy = false →
        keyOuts key (tick sbRef bn wfm ⟨.ok bs, .ok det, .ok ks⟩).2 = []))
    ∧ (∀ (key : String) (v : JSValue), (key, v) ∈ detailFieldValues det →
      (v.truthy = true →
        keyOuts key (tick sbRef bn wfm ⟨.ok bs, .ok det, .ok ks⟩).2
          = [(key, v.toStr)])
      ∧ (v.truthy = false →
        keyOuts key (tick sbRef bn wfm ⟨.ok bs, .ok det, .ok ks⟩).2 = [])) := by
  rw [tick_success sbRef bn wfm bs cb det ks hf hr]
  constructor
  · intro key v hm
    simp only [branchFieldValues, List.mem_cons, List.not_mem_nil, or_false,
      Prod.mk.injEq] at hm
    rcases hm with h | h | h | h | h | h | h | h | h | h <;>
    obtain ⟨rfl, rfl⟩ := h <;>
    · refine ⟨fun ht hs => ?_, fun ht hs => ⟨?_, ?_⟩, fun ht => ?_⟩ <;>
      · rw [keyOuts_successTrace _ (append_key_ne _ (by decide)) sbRef bn cb det ks]
        simp only [publishBranchFields, branchFieldValues, publishDetailFields,
          detailFieldValues, List.map_cons, List.map_nil, List.flatten_cons,
          List.flatten_nil, keyOuts_append]
        repeat first
          | rw [keyOuts_summaryField_self _ _ ht hs]
          | rw [keyOuts_summaryField_renamed2 _ _ _ ht hs (by decide)]
          | rw [keyOuts_summaryField_self_renamed_ne _ _ hs (by decide)]
          | rw [keyOuts_summaryField_falsy _ _ _ ht]
          | rw [keyOuts_summaryField_ne _ _ _ (by decide) (by decide)]
          | rw [keyOuts_detailField_ne _ _ _ (by decide)]
        simp [keyOuts]
  · intro key v hm
    simp only [detailFieldValues, List.mem_cons, List.not_mem_nil, or_false,
      Prod.mk.injEq] at hm
    rcases hm with h | h | h | h | h <;>
    obtain ⟨rfl, rfl⟩ := h <;>
    · refine ⟨fun ht => ?_, fun ht => ?_⟩ <;>
      · rw [keyOuts_successTrace _ (append_key_ne _ (by decide)) sbRef bn cb det ks]
        simp only [publishBranchFields, branchFieldValues, publishDetailFields,
          detailFieldValues, List.map_cons, List.map_nil, List.flatten_cons,
          List.flatten_nil, keyOuts_append]
        repeat first
          | rw [keyOuts_detailField_self _ _ ht]
          | rw [keyOuts_detailField_falsy _ _ _ ht]
          | rw [keyOuts_detailField_ne _ _ _ (by decide)]
          | rw [keyOuts_summaryField_ne _ _ _ (by decide) (by decide)]
        simp [keyOuts]

/-- Witness for C5 amended at concrete inputs. -/
theorem c5_round_trip_witness :
    keyOuts "id" (tick "proj" "feat-x" true
        ⟨.ok [sampleBranch], .ok sampleDetail, .ok [sampleKey]⟩).2
      = [("id", "i1")]
    ∧ keyOuts "db_host" (tick "proj" "feat-x" true
        ⟨.ok [sampleBranch], .ok sampleDetail, .ok [sampleKey]⟩).2
      = [("db_host", "h")] := by
  constructor
  · have h := ((c5_round_trip "proj" "feat-x" true [sampleBranch] sampleBranch
      sampleDetail [sampleKey] (by decide) (by decide)).1 "id" (.str "i1")
      (by decide)).1 (by decide) (by decide)
    simpa using h
  · have h := ((c5_round_trip "proj" "feat-x" true [sampleBranch] sampleBranch
      sampleDetail [sampleKey] (by decide) (by decide)).2 "db_host" (.str "h")
      (by decide)).1 (by decide)
    simpa using h

/-- Counterexample for C5 as stated: for a branch literally named
`status`, the truthy `name` attribute (value `status`) is not published
under its documented name `name`; it is published under the renamed key
`namebranch_status`. -/
theorem c5_counterexample :
    (JSValue.str "status").truthy = true
    ∧ ("name", JSValue.str "status") ∈ branchFieldValues statusNamedBranch
    ∧ (tick "proj" "status" false
        ⟨.ok [statusNamedBranch], .ok sampleDetail, .ok [sampleKey]⟩).1 = .success
    ∧ keyOuts "name" (tick "proj" "status" false
        ⟨.ok [statusNamedBranch], .ok sampleDetail, .ok [sampleKey]⟩).2 = []
    ∧ ("namebranch_status", "status") ∈ outputsOf (tick "proj" "status" false
        ⟨.ok [statusNamedBranch], .ok sampleDetail, .ok [sampleKey]⟩).2 :=
  ⟨by decide, by decide, by decide, by decide, by decide⟩

/-- C8 amended: on a ready tick, the transient path of the detail fetch
or of the credential fetch skips the remainder of the iteration (nothing
is published, the loop re-enters); but a credential fetch returning an
empty list does not skip: the iteration proceeds to success, publishing
the summary, detail and URL outputs with no credential key outputs. -/
theorem c8_empty_vs_transient (sbRef bn : String) (wfm : Bool) (bs : List Branch)
    (cb : Branch) (det : BranchDetails) (e : ApiError)
    (hf : (bs.find? fun b => b.name == bn) = some cb)
    (hr : isReady wfm (some cb) = true)
    (ht : isTransient e = true) :
    ((tick sbRef bn wfm ⟨.ok bs, .err e, .ok []⟩).1 = .skipNoSleep
      ∧ outputsOf (tick sbRef bn wfm ⟨.ok bs, .err e, .ok []⟩).2 = [])
    ∧ ((tick sbRef bn wfm ⟨.ok bs, .ok det, .err e⟩).1 = .skipNoSleep
      ∧ outputsOf (tick sbRef bn wfm ⟨.ok bs, .ok det, .err e⟩).2 = [])
    ∧ ((tick sbRef bn wfm ⟨.ok bs, .ok det, .ok []⟩).1 = .success
      ∧ outputsOf (tick sbRef bn wfm ⟨.ok bs, .ok det, .ok []⟩).2
          = outputsOf (publishBranchFields cb) ++ outputsOf (publishDetailFields det)
            ++ [("api_url", apiUrl det), ("graphql_url", graphqlUrl det)]) := by
  refine ⟨?_, ?_, ?_⟩
  · rw [tick_detail_transient sbRef bn wfm bs cb e (.ok []) hf hr ht]
    exact ⟨rfl, rfl⟩
  · rw [tick_keys_transient sbRef bn wfm bs cb det e hf hr ht]
    exact ⟨rfl, rfl⟩
  · rw [tick_success sbRef bn wfm bs cb det [] hf hr]
    refine ⟨rfl, ?_⟩
    rw [outputsOf_successTrace]
    simp [publishApiKeys]

/-- Witness for C8 amended at concrete inputs. -/
theorem c8_empty_vs_transient_witness :
    (tick "proj" "feat-x" true
        ⟨.ok [sampleBranch], .ok sampleDetail, .err ⟨429, "r"⟩⟩).1 = .skipNoSleep
    ∧ (tick "proj" "feat-x" true
        ⟨.ok [sampleBranch], .ok sampleDetail, .ok []⟩).1 = .success :=
  ⟨((c8_empty_vs_transient "proj" "feat-x" true [sampleBranch] sampleBranch
      sampleDetail ⟨429, "r"⟩ (by decide) (by decide) (by decide)).2.1).1,
   ((c8_empty_vs_transient "proj" "feat-x" true [sampleBranch] sampleBranch
      sampleDetail ⟨429, "r"⟩ (by decide) (by decide) (by decide)).2.2).1⟩

/-- Counterexample for C8 as stated: a ready tick whose credential fetch
returns an empty list (no entries) is not skipped: the iteration
publishes its outputs and ends the wait with success, instead of
publishing nothing and proceeding to the next tick. -/
theorem c8_counterexample :
    (tick "proj" "feat-x" true
        ⟨.ok [sampleBranch], .ok sampleDetail, .ok []⟩).1 = .success
    ∧ outputsOf (tick "proj" "feat-x" true
        ⟨.ok [sampleBranch], .ok sampleDetail, .ok []⟩).2 ≠ [] :=
  ⟨by decide, by decide⟩

/-- C9 amended: the timeout input must parse to a number: a parse
yielding NaN fails the run with the configuration error message before
any remote call; but a parse yielding a negative number passes
validation, so such a run does not fail with a configuration error. -/
theorem c9_timeout_validation (sbToken sbRef : String) (wfm : Bool)
    (headRef ghRef : Option String) (start : Int) (steps : List Step)
    (h1 : (sbToken == "") = false) (h2 : (sbRef == "") = false) :
    mainRun sbToken sbRef wfm .nan headRef ghRef start steps
      = (.configFail "Timeout is not a valid number",
         [Event.setSecret sbToken, Event.setSecret sbRef,
          Event.setFailed "Timeout is not a valid number"])
    ∧ (∀ e ∈ (mainRun sbToken sbRef wfm .nan headRef ghRef start steps).2,
        isRemoteCall e = false) := by
  have he : mainRun sbToken sbRef wfm .nan headRef ghRef start steps
      = (.configFail "Timeout is not a valid number",
         [Event.setSecret sbToken, Event.setSecret sbRef,
          Event.setFailed "Timeout is not a valid number"]) := by
    simp [mainRun, h1, h2]
  refine ⟨he, ?_⟩
  rw [he]
  intro e hm
  rcases hm with _ | ⟨_, hm⟩
  · rfl
  · rcases hm with _ | ⟨_, hm⟩
    · rfl
    · rcases hm with _ | ⟨_, hm⟩
      · rfl
      · cases hm

/-- Witness for C9 amended at concrete inputs. -/
theorem c9_timeout_validation_witness :
    (("t" : String) == "") = false
    ∧ (("r" : String) == "") = false
    ∧ mainRun "t" "r" false .nan (some "b") none 0 []
        = (.configFail "Timeout is not a valid number",
           [Event.setSecret "t", Event.setSecret "r",
            Event.setFailed "Timeout is not a valid number"]) :=
  ⟨by decide, by decide,
   (c9_timeout_validation "t" "r" false (some "b") none 0 [] (by decide)
     (by decide)).1⟩

/-- Counterexample for C9 as stated: the timeout input `-5` parses to the
negative number -5, which is not a non-negative number of seconds, yet
the run does not fail with a configuration error: validation passes and
the run ends with the timeout failure instead. -/
theorem c9_counterexample :
    mainRun "t" "r" false (.num (-5)) (some "b") none 0 [⟨0, sampleData⟩]
      = (.loopDone .timedOut,
         [Event.setSecret "t", Event.setSecret "r", Event.consoleLog "b",
          Event.info "Current Git branch: b",
          Event.setFailed (timeoutMsg "b")])
    ∧ (∀ msg, MainResult.loopDone RunResult.timedOut ≠ MainResult.configFail msg) :=
  ⟨by decide, fun msg h => by cases h⟩

/-- C10: every value published through the sensitive path is passed to
setSecret before the setOutput that emits it; only the two URL outputs
are published without masking, and the values the successful iteration
masks are exactly the credential key values and the truthy stringified
summary and detail values. -/
theorem c10_masking_order (sbRef bn : String) (wfm : Bool) (d : TickData) :
    maskOrdered [] (tick sbRef bn wfm d).2 = true
    ∧ (∀ (bs : List Branch) (cb : Branch) (det : BranchDetails) (ks : List ApiKey),
        d = ⟨.ok bs, .ok det, .ok ks⟩ →
        (bs.find? fun b => b.name == bn) = some cb →
        isReady wfm (some cb) = true →
        secretsSeen (tick sbRef bn wfm d).2
          = (ks.map fun k => k.api_key)
            ++ truthySecrets (branchFieldValues cb)
            ++ truthySecrets (detailFieldValues det)) := by
  constructor
  · rcases d with ⟨br, dr, kr⟩
    rcases br with bs | e
    · rcases hf : bs.find? fun b => b.name == bn with _ | cb
      · rw [tick_ok_not_ready sbRef bn wfm bs _ rfl (by rw [hf]; rfl)]
        simp [maskOrdered]
      · rcases hr : isReady wfm (some cb)
        · rw [tick_ok_not_ready sbRef bn wfm bs _ rfl (by rw [hf]; exact hr)]
          simp [maskOrdered]
        · rcases dr with det | e
          · rcases kr with ks | e2
            · rw [tick_success sbRef bn wfm bs cb det ks hf hr]
              have htail : ∀ seen, maskOrdered seen
                  [Event.setOutput "api_url" (apiUrl det),
                   Event.setOutput "graphql_url" (graphqlUrl det),
                   Event.info "success"] = true := by
                intro seen
                simp [maskOrdered]
              have h3 := maskOrdered_publishDetailFields det _ htail
              have h2 := maskOrdered_publishBranchFields cb _ h3
              have h1 := maskOrdered_publishApiKeys ks _ h2
              have e : successTrace sbRef bn cb det ks
                  = Event.callGetBranches sbRef
                    :: Event.info ("Branch " ++ bn ++ " found, status: "
                          ++ statusToString cb.status)
                    :: Event.callGetBranchDetails cb.id
                    :: Event.callGetProjectApiKeys cb.project_ref
                    :: (publishApiKeys ks ++ (publishBranchFields cb
                        ++ (publishDetailFields det
                        ++ [Event.setOutput "api_url" (apiUrl det),
                            Event.setOutput "graphql_url" (graphqlUrl det),
                            Event.info "success"]))) := by
                simp [successTrace]
              rw [e]
              simp only [maskOrdered]
              exact h1 []
            · rcases ht : isTransient e2
              · rw [tick_keys_fatal sbRef bn wfm bs cb det e2 hf hr ht]
                simp [maskOrdered]
              · rw [tick_keys_transient sbRef bn wfm bs cb det e2 hf hr ht]
                simp [maskOrdered]
          · rcases ht : isTransient e
            · rw [tick_detail_fatal sbRef bn wfm bs cb e kr hf hr ht]
              simp [maskOrdered]
            · rw [tick_detail_transient sbRef bn wfm bs cb e kr hf hr ht]
              simp [maskOrdered]
    · rcases ht : isTransient e
      · rw [tick_err_fatal sbRef bn wfm e dr kr ht]
        simp [maskOrdered]
      · rw [tick_err_transient sbRef bn wfm e dr kr ht]
        simp [maskOrdered]
  · rintro bs cb det ks rfl hf hr
    rw [tick_success sbRef bn wfm bs cb det ks hf hr]
    simp only [successTrace, publishBranchFields, publishDetailFields,
      secretsSeen_append, secretsSeen_cons_callGetBranches, secretsSeen_cons_info,
      secretsSeen_cons_callGetBranchDetails, secretsSeen_cons_callGetProjectApiKeys,
      secretsSeen_cons_setOutput, secretsSeen_nil, secretsSeen_publishApiKeys,
      secretsSeen_summaryFlat, secretsSeen_detailFlat]
    simp [secretsSeen]

/-- Witness for C10 at concrete inputs. -/
theorem c10_masking_order_witness :
    maskOrdered [] (tick "proj" "feat-x" true
        ⟨.ok [sampleBranch], .ok sampleDetail, .ok [sampleKey]⟩).2 = true
    ∧ secretsSeen (tick "proj" "feat-x" true
        ⟨.ok [sampleBranch], .ok sampleDetail, .ok [sampleKey]⟩).2
      = ["secretA"] ++ truthySecrets (branchFieldValues sampleBranch)
        ++ truthySecrets (detailFieldValues sampleDetail) :=
  ⟨(c10_masking_order "proj" "feat-x" true
      ⟨.ok [sampleBranch], .ok sampleDetail, .ok [sampleKey]⟩).1,
   (c10_masking_order "proj" "feat-x" true
      ⟨.ok [sampleBranch], .ok sampleDetail, .ok [sampleKey]⟩).2
      [sampleBranch] sampleBranch sampleDetail [sampleKey] rfl
      (by decide) (by decide)⟩

end SupabaseBranchAction
